import Mathlib

/-!
Shallow embedding of the moebot MQTT bridge (src/moebot_client.py,
src/mqtt_handler.py) and proofs about its specified behaviour.

Python values that can flow into the decoders and the stat publisher are
modelled by `PyVal`; Python's `int(...)` conversion by `pyToInt`; stateful
handler methods by explicit state passing over `BridgeState`.
-/

namespace Moebot

/-- A Python value as it can appear at the decoder / publisher boundaries:
an int, a bool (which Python treats as an instance of int), a string, or None. -/
inductive PyVal where
  | int (n : Int)
  | bool (b : Bool)
  | str (s : String)
  | none
deriving DecidableEq, Repr

/-- Decimal digits to their value, or `Option.none` when empty or non-digit. -/
def digitsToNat (ds : List Char) : Option Nat :=
  if ds ≠ [] ∧ ds.all Char.isDigit then
    some (ds.foldl (fun acc c => acc * 10 + (c.toNat - Char.toNat '0')) 0)
  else
    Option.none

/-- Python `str.strip` + optional sign + decimal digits, i.e. the inputs on
which `int(payload)` succeeds, and the value it returns.  Models CPython
`int(str)` up to exotic forms (underscore separators, non-ASCII digits). -/
def pyParseInt (s : String) : Option Int :=
  let t := ((s.data.dropWhile Char.isWhitespace).reverse.dropWhile Char.isWhitespace).reverse
  match t with
  | '-' :: ds => (digitsToNat ds).map (fun n => -(Int.ofNat n))
  | '+' :: ds => (digitsToNat ds).map Int.ofNat
  | ds => (digitsToNat ds).map Int.ofNat

/-- Python `int(v)` on a `PyVal`: ints (and bools, which are ints) convert
directly, strings go through decimal parsing, `None` raises (modelled as
`Option.none`). -/
def pyToInt : PyVal → Option Int
  | .int n => some n
  | .bool b => some (if b then 1 else 0)
  | .str s => pyParseInt s
  | .none => Option.none

namespace PasswordDecoder

/-- The DIGIT_TO_LETTER mapping of `PasswordDecoder`: 1=A, 2=B, 3=C, 4=D. -/
def DIGIT_TO_LETTER : List (Char × Char) :=
  [('1', 'A'), ('2', 'B'), ('3', 'C'), ('4', 'D')]

/-- One digit character through the table; characters not in the table pass
through unchanged (the `else` branch of the loop). -/
def digitToLetter (c : Char) : Char :=
  (DIGIT_TO_LETTER.lookup c).getD c

/-- `PasswordDecoder.decode`: `None` yields `""`; otherwise `str(password_value)`
is traversed character by character through the table. -/
def decode : Option Int → String
  | Option.none => ""
  | some n => String.mk ((toString n).data.map digitToLetter)

end PasswordDecoder

namespace ErrorDecoder

/-- The ERROR_CODES table of `ErrorDecoder`: bit position to flag name, in
the source's insertion (ascending) order. -/
def ERROR_CODES : List (Nat × String) :=
  [(0, "FAULT_LEAN"),
   (1, "FAULT_TOO_STEEP"),
   (2, "NO_SIGNAL"),
   (3, "L_MOTOR_ERROR"),
   (4, "R_MOTOR_ERROR"),
   (5, "BATTERY_VOL_HIGH"),
   (6, "CHARGE_OVERCURRENT"),
   (7, "CHARGE_OVERVOLTAGE"),
   (8, "CHARGE_OVERTEMP"),
   (9, "BATTERY_DAMAGE"),
   (10, "BATTERY_LOW"),
   (11, "DISCHARGE_CURRENT"),
   (12, "DISCHARGE_TEMP"),
   (13, "UNEXPECTED_LOW"),
   (14, "EXPECTED_ERROR"),
   (15, "IMU_INVALID"),
   (16, "EMS_INVALID"),
   (17, "RAIN_INVALID"),
   (18, "HALL_INVALID"),
   (19, "STEEP_OVER_3S"),
   (20, "OUTSIDE_AREA"),
   (21, "LIFTED"),
   (22, "TRAPPED"),
   (23, "B_MOTOR_ERROR"),
   (24, "OVERTURN"),
   (25, "MOTOR_OVERCURRENT"),
   (26, "MOTOR_HALL"),
   (27, "MOTOR_DISCONNECT"),
   (28, "EMS_DISCONNECT"),
   (29, "MOTOR_ERROR")]

/-- Name of the flag at a bit position (total, for stating theorems). -/
def errorName (i : Nat) : String :=
  (ERROR_CODES.lookup i).getD ""

/-- Bit `b` of a Python integer, i.e. whether `e & (1 << b)` is nonzero;
Python ints are two's complement, so a negative `Int.negSucc m` has bit `b`
set iff bit `b` of `m` is clear. -/
def intTestBit : Int → Nat → Bool
  | Int.ofNat m, b => m.testBit b
  | Int.negSucc m, b => !(m.testBit b)

/-- The decoding loop of `ErrorDecoder.decode` once an integer is in hand:
walk ERROR_CODES in order, keeping the names whose bit is set. -/
def decodeInt (e : Int) : List String :=
  (ERROR_CODES.filter (fun p => intTestBit e p.1)).map (fun p => p.2)

/-- `ErrorDecoder.decode`: non-int inputs are first passed through `int(...)`;
if that conversion fails the decoder returns `[]`, otherwise the integer is
decoded against the table. -/
def decode (v : PyVal) : List String :=
  match pyToInt v with
  | some e => decodeInt e
  | Option.none => []

end ErrorDecoder

end Moebot

namespace Moebot

/-- The five mowing zones exposed by the device (`zones.zone1` .. `zones.zone5`),
each a (distance, ratio-percent) pair. -/
structure Zones where
  zone1 : Int × Int
  zone2 : Int × Int
  zone3 : Int × Int
  zone4 : Int × Int
  zone5 : Int × Int
deriving DecidableEq, Repr

/-- Observable state of a connected MoeBot client: the property reads used by
the MQTT handler, the raw DPS fields behind `machine_errors` / `password`,
and the protocol version locked in by `__ensure_connection` (if any). -/
structure Device where
  battery : Int
  state : String
  emergencyState : Option String
  mowInRain : Bool
  mowTime : Int
  workMode : String
  online : Bool
  zones : Option Zones
  dps102 : Option PyVal
  dps106 : Option Int
  lockedVersion : Option String
deriving DecidableEq, Repr

/-- `MoeBotClient.machine_errors`: decode DPS 102 when present, else `[]`. -/
def machineErrors (d : Device) : List String :=
  match d.dps102 with
  | some v => ErrorDecoder.decode v
  | Option.none => []

/-- `MoeBotClient.password`: numeric and letter form from DPS 106 when
present, else an absent numeric and empty letter form. -/
def passwordData (d : Device) : Option Int × String :=
  match d.dps106 with
  | some n => (some n, PasswordDecoder.decode (some n))
  | Option.none => (Option.none, "")

/-- Lookup in the `last_stats` change-detection dict. -/
def getStat : List (String × String) → String → Option String
  | [], _ => Option.none
  | (k, v) :: rest, key => if k = key then some v else getStat rest key

/-- Assignment `last_stats[key] = value` on the change-detection dict. -/
def setStat : List (String × String) → String → String → List (String × String)
  | [], key, val => [(key, val)]
  | (k, v) :: rest, key, val =>
      if k = key then (k, val) :: rest else (k, v) :: setStat rest key val

/-- State of the `MoeBotMQTT` bridge object, together with an observable
trace: `outbox` records actual outbound emissions (topic, payload),
`pubCalls` records every invocation of `_publish_stat` (stat name,
normalized payload), `logs` records warning/error log lines, and
`deviceActions` records commands forwarded to the device. -/
structure BridgeState where
  moebot : Option Device
  mqttClient : Bool
  lastStats : List (String × String)
  outbox : List (String × String)
  pubCalls : List (String × String)
  logs : List String
  deviceActions : List String
  statsTopic : String
deriving DecidableEq, Repr

/-- Append a warning/error log line. -/
def logAdd (s : BridgeState) (m : String) : BridgeState :=
  { s with logs := s.logs ++ [m] }

/-- `str(value).lower() if isinstance(value, bool) else str(value)`: the
canonical string form used by `_publish_stat`. -/
def statPayload : PyVal → String
  | .bool b => if b then "true" else "false"
  | .int n => toString n
  | .str s => s
  | .none => "None"

/-- `MoeBotMQTT._publish_stat`: return immediately when the MQTT client is
absent; skip when the normalized payload equals the cached value; otherwise
emit on `stats/<name>` with retain and update the cache.  The invocation is
always recorded in `pubCalls`. -/
def publishStat (s : BridgeState) (key : String) (v : PyVal) : BridgeState :=
  let payload := statPayload v
  let s1 := { s with pubCalls := s.pubCalls ++ [(key, payload)] }
  if s.mqttClient = false then
    s1
  else if getStat s.lastStats key = some payload then
    s1
  else
    { s1 with
      outbox := s1.outbox ++ [(s.statsTopic ++ "/" ++ key, payload)],
      lastStats := setStat s.lastStats key payload }

/-- Truthiness of the `emergency_state` property (None and "" are falsy). -/
def esTruthy : Option String → Bool
  | some t => t ≠ ""
  | Option.none => false

/-- `MoeBotMQTT._publish_all_stats`: publish every tracked stat from the
device; with no device the first attribute access raises and the surrounding
try/except logs the error having published nothing. -/
def publishAllStats (s : BridgeState) : BridgeState :=
  match s.moebot with
  | Option.none => logAdd s "Error publishing stats"
  | some d =>
    let s := publishStat s "battery" (.int d.battery)
    let s := publishStat s "state" (.str d.state)
    let s :=
      if (d.state == "EMERGENCY") && esTruthy d.emergencyState then
        publishStat s "emergency_state" (.str (d.emergencyState.getD ""))
      else
        publishStat s "emergency_state" (.str "")
    let s := publishStat s "mow_in_rain" (.bool d.mowInRain)
    let s := publishStat s "mow_time" (.int d.mowTime)
    let s := publishStat s "work_mode" (.str d.workMode)
    let s := publishStat s "online" (.bool d.online)
    let s :=
      match d.zones with
      | Option.none => s
      | some zs =>
        let s := publishStat s "zone1_distance" (.int zs.zone1.1)
        let s := publishStat s "zone1_ratio" (.int zs.zone1.2)
        let s := publishStat s "zone2_distance" (.int zs.zone2.1)
        let s := publishStat s "zone2_ratio" (.int zs.zone2.2)
        let s := publishStat s "zone3_distance" (.int zs.zone3.1)
        let s := publishStat s "zone3_ratio" (.int zs.zone3.2)
        let s := publishStat s "zone4_distance" (.int zs.zone4.1)
        let s := publishStat s "zone4_ratio" (.int zs.zone4.2)
        let s := publishStat s "zone5_distance" (.int zs.zone5.1)
        let s := publishStat s "zone5_ratio" (.int zs.zone5.2)
        s
    let errs := machineErrors d
    let s := publishStat s "machine_errors"
      (.str (if errs.isEmpty then "None" else String.intercalate "," errs))
    let s :=
      match d.dps106 with
      | some n =>
        if n ≠ 0 then
          publishStat s "device_password" (.str (PasswordDecoder.decode (some n)))
        else s
      | Option.none => s
    s

/-- The command names `_handle_command` recognises. -/
def knownCommands : List String :=
  ["start", "pause", "cancel", "dock", "mow_time", "mow_in_rain",
   "poll", "get_errors", "get_password"]

/-- Body of `MoeBotMQTT._handle_command` inside its try block.  Accessing a
method on `self.moebot` when it is `None` raises; an `Except.error` carries
the state at the raise point (mutations made before the raise persist). -/
def handleCommandCore (s : BridgeState) (command payload : String) :
    Except BridgeState BridgeState :=
  if command = "start" then
    match s.moebot with
    | Option.none => .error s
    | some d =>
      let spiral := payload.toLower = "spiral"
      let s := { s with deviceActions :=
        s.deviceActions ++ [if spiral then "start_spiral" else "start"] }
      .ok (publishStat s "state" (.str d.state))
  else if command = "pause" then
    match s.moebot with
    | Option.none => .error s
    | some d =>
      let s := { s with deviceActions := s.deviceActions ++ ["pause"] }
      .ok (publishStat s "state" (.str d.state))
  else if command = "cancel" then
    match s.moebot with
    | Option.none => .error s
    | some d =>
      let s := { s with deviceActions := s.deviceActions ++ ["cancel"] }
      .ok (publishStat s "state" (.str d.state))
  else if command = "dock" then
    match s.moebot with
    | Option.none => .error s
    | some d =>
      let s := { s with deviceActions := s.deviceActions ++ ["dock"] }
      .ok (publishStat s "state" (.str d.state))
  else if command = "mow_time" then
    match pyParseInt payload with
    | Option.none => .ok (logAdd s ("Invalid mow_time value: " ++ payload))
    | some hours =>
      if 1 ≤ hours ∧ hours ≤ 99 then
        match s.moebot with
        | Option.none => .error s
        | some d =>
          let s := { s with moebot := some { d with mowTime := hours } }
          .ok (publishStat s "mow_time" (.int hours))
      else
        .ok (logAdd s ("Mow time must be between 1-99, got " ++ toString hours))
  else if command = "mow_in_rain" then
    if payload = "true" ∨ payload = "1" ∨ payload = "on" ∨ payload = "yes" then
      match s.moebot with
      | Option.none => .error s
      | some d =>
        let s := { s with moebot := some { d with mowInRain := true } }
        .ok (publishStat s "mow_in_rain" (.str "true"))
    else if payload = "false" ∨ payload = "0" ∨ payload = "off" ∨ payload = "no" then
      match s.moebot with
      | Option.none => .error s
      | some d =>
        let s := { s with moebot := some { d with mowInRain := false } }
        .ok (publishStat s "mow_in_rain" (.str "false"))
    else
      .ok (logAdd s ("Invalid mow_in_rain value: " ++ payload))
  else if command = "poll" then
    match s.moebot with
    | Option.none => .error s
    | some _ =>
      let s := { s with deviceActions := s.deviceActions ++ ["poll"] }
      .ok (publishAllStats s)
  else if command = "get_errors" then
    match s.moebot with
    | Option.none => .error s
    | some d =>
      let errs := machineErrors d
      .ok (publishStat s "machine_errors"
        (.str (if errs.isEmpty then "None" else String.intercalate "," errs)))
  else if command = "get_password" then
    match s.moebot with
    | Option.none => .error s
    | some d =>
      match (passwordData d).1 with
      | some n =>
        if n ≠ 0 then
          .ok (publishStat s "device_password" (.str (passwordData d).2))
        else
          .ok (publishStat s "device_password" (.str "Unknown"))
      | Option.none =>
        .ok (publishStat s "device_password" (.str "Unknown"))
  else
    .ok (logAdd s ("Unknown command: " ++ command))

/-- `MoeBotMQTT._handle_command`: the surrounding try/except catches any
failure of the body and logs it; nothing propagates to the caller. -/
def handleCommand (s : BridgeState) (command payload : String) : BridgeState :=
  match handleCommandCore s command payload with
  | .ok s1 => s1
  | .error s1 => logAdd s1 ("Error handling command " ++ command)

/-- Result of `MoeBotClient.__ensure_connection`: the protocol version that
was locked in (if any), the status payload used to seed the parent state
(if any), and whether the no-connection warning was logged. -/
structure ClientConn where
  lockedVersion : Option String
  seededState : Option Device
  warned : Bool
deriving DecidableEq, Repr

/-- The candidate protocol versions, highest-capability first. -/
def versionsToTry : List String := ["3.4", "3.3"]

/-- A probe oracle for one status query at a given protocol version:
`Option.none` models `set_version`/`status` raising, `some (hasDps, d)`
models a response, with `hasDps` the result of the `'dps' in status` test
and `d` the device state the payload parses to. -/
def ProbeOracle : Type := String → Option (Bool × Device)

/-- The version loop of `__ensure_connection` over a list of candidates:
exceptions are caught and the next candidate is tried; the first response
containing a dps payload is locked in and seeds the state; exhaustion only
logs a warning. -/
def ensureConnectionGo (probe : ProbeOracle) : List String → ClientConn
  | [] => { lockedVersion := Option.none, seededState := Option.none, warned := true }
  | v :: rest =>
    match probe v with
    | some (true, d) =>
      { lockedVersion := some v, seededState := some d, warned := false }
    | some (false, _) => ensureConnectionGo probe rest
    | Option.none => ensureConnectionGo probe rest

/-- `MoeBotClient.__ensure_connection` on the source's candidate list. -/
def ensureConnection (probe : ProbeOracle) : ClientConn :=
  ensureConnectionGo probe versionsToTry

/-- The parent (pymoebot) state before any payload is parsed. -/
def defaultDevice : Device :=
  { battery := 0, state := "", emergencyState := Option.none,
    mowInRain := false, mowTime := 0, workMode := "", online := false,
    zones := Option.none, dps102 := Option.none, dps106 := Option.none,
    lockedVersion := Option.none }

/-- `MoeBotClient.__init__` after the parent constructor: run
`__ensure_connection` and keep whatever state it seeded — the constructor
completes whether or not a version was locked in. -/
def mkMoeBotClient (probe : ProbeOracle) : Device :=
  let conn := ensureConnection probe
  match conn.seededState with
  | some d => { d with lockedVersion := conn.lockedVersion }
  | Option.none => { defaultDevice with lockedVersion := conn.lockedVersion }

/-- External behaviour surrounding `_connect_moebot`: the probe oracle for
protocol negotiation, and whether the parent constructor, `listen()` or
`poll()` raise. -/
structure Ext where
  probe : ProbeOracle
  parentInitRaises : Bool
  listenRaises : Bool
  pollRaises : Bool

/-- `MoeBotMQTT._connect_moebot`: build the client (protocol negotiation
included), install it as `self.moebot`, start the listener, poll and publish;
on any raise the partial client is torn down (`self.moebot = None`) and the
exception propagates to the caller. -/
def connectMoebot (s : BridgeState) (ext : Ext) : Except BridgeState BridgeState :=
  if ext.parentInitRaises then
    .error (logAdd { s with moebot := Option.none } "Failed to connect to MoeBot")
  else
    let client := mkMoeBotClient ext.probe
    let s1 := { s with moebot := some client }
    if ext.listenRaises then
      .error (logAdd { s1 with moebot := Option.none } "Failed to connect to MoeBot")
    else if ext.pollRaises then
      .error (logAdd { s1 with moebot := Option.none } "Failed to connect to MoeBot")
    else
      .ok (publishAllStats
        { s1 with deviceActions := s1.deviceActions ++ ["listen", "poll"] })

/-- What the supervisor can observe about the device connection in one
check cycle. -/
structure DevHealth where
  listenerAlive : Bool
  lastUpdate : Option Int
deriving DecidableEq, Repr

/-- Observable actions of one iteration of `_supervisor_loop`: a reconnect
cycle (`_restart_moebot`: teardown, 2 s pause, connect attempt), an explicit
sleep, or a periodic garbage collection. -/
inductive SupAction where
  | restart
  | sleepSec (n : Nat)
  | collectGarbage
deriving DecidableEq, Repr

/-- The staleness test of Check 2: a truthy `last_update` whose age exceeds
60 seconds. -/
def isStale (currentTime : Int) (lastUpdate : Option Int) : Bool :=
  match lastUpdate with
  | some t => t ≠ 0 && currentTime - t > 60
  | Option.none => false

/-- One iteration of the `_supervisor_loop` body: Check 0 (no session) →
restart then sleep 10; Check 1 (listener dead) → restart; Check 2 (stale
data) → restart; otherwise optional 15-minute GC and the 10 s cycle sleep.
Returns the iteration's actions and the updated `last_gc_time`. -/
def superviseStep (currentTime : Int) (mb : Option DevHealth) (lastGcTime : Int) :
    List SupAction × Int :=
  match mb with
  | Option.none => ([.restart, .sleepSec 10], lastGcTime)
  | some dev =>
    if !dev.listenerAlive then
      ([.restart], lastGcTime)
    else if isStale currentTime dev.lastUpdate then
      ([.restart], lastGcTime)
    else if currentTime - lastGcTime > 900 then
      ([.collectGarbage, .sleepSec 10], currentTime)
    else
      ([.sleepSec 10], lastGcTime)

/-- Seconds an action pauses the supervisor thread for: `_restart_moebot`
sleeps 2 s internally. -/
def pauseSeconds : SupAction → Nat
  | .restart => 2
  | .sleepSec n => n
  | .collectGarbage => 0

/-- Total pause of one iteration's actions. -/
def totalPause (acts : List SupAction) : Nat :=
  (acts.map pauseSeconds).sum

/-- A bridge state right after `start()`: MQTT client present, empty cache. -/
def bs0 : BridgeState :=
  { moebot := Option.none, mqttClient := true, lastStats := [], outbox := [],
    pubCalls := [], logs := [], deviceActions := [], statsTopic := "moebot/stats" }

/-- A bridge state whose MQTT client has not been initialized. -/
def bsOff : BridgeState := { bs0 with mqttClient := false }

/-- A concrete healthy device for witnesses. -/
def dev0 : Device :=
  { battery := 77, state := "STANDBY", emergencyState := Option.none,
    mowInRain := false, mowTime := 4, workMode := "AutoMode", online := true,
    zones := Option.none, dps102 := some (.int 0), dps106 := some 1234,
    lockedVersion := some "3.4" }

/-- A bridge state with a connected device. -/
def sDev : BridgeState := { bs0 with moebot := some dev0 }

/-- A probe oracle on which every status query raises. -/
def failProbe : ProbeOracle := fun _ => Option.none

/-- External behaviour where protocol negotiation fails completely but no
surrounding external call raises. -/
def extAllFail : Ext :=
  { probe := failProbe, parentInitRaises := false, listenRaises := false,
    pollRaises := false }

/-- A probe oracle where version 3.4 raises and version 3.3 answers with a
well-formed dps payload. -/
def probeB : ProbeOracle :=
  fun v => if v = "3.3" then some (true, dev0) else Option.none

/-- `probe v` failed the status probe: the query raised, or the response had
no `dps` key. -/
def probeFails (probe : ProbeOracle) (v : String) : Prop :=
  probe v = Option.none ∨ ∃ d : Device, probe v = some (false, d)

/-- A device-health observation with a stale `last_update`. -/
def devStale : DevHealth := { listenerAlive := true, lastUpdate := some 100 }

/-- External behaviour with a given probe oracle and no raise from the
parent constructor, `listen()` or `poll()`. -/
def extOf (probe : ProbeOracle) : Ext :=
  { probe := probe, parentInitRaises := false, listenRaises := false,
    pollRaises := false }

end Moebot

namespace Moebot

/-- The digit table, pointwise: the four mapped digits, all else unchanged. -/
theorem digitToLetter_eq (c : Char) :
    PasswordDecoder.digitToLetter c =
      if c = '1' then 'A' else if c = '2' then 'B'
      else if c = '3' then 'C' else if c = '4' then 'D' else c := by
  by_cases h1 : c = '1'
  · subst h1; decide
  by_cases h2 : c = '2'
  · subst h2; decide
  by_cases h3 : c = '3'
  · subst h3; decide
  by_cases h4 : c = '4'
  · subst h4; decide
  have e1 : (c == '1') = false := by simp [h1]
  have e2 : (c == '2') = false := by simp [h2]
  have e3 : (c == '3') = false := by simp [h3]
  have e4 : (c == '4') = false := by simp [h4]
  simp [PasswordDecoder.digitToLetter, PasswordDecoder.DIGIT_TO_LETTER,
    List.lookup, e1, e2, e3, e4, h1, h2, h3, h4]

/-- Claim C8: `decode_password` of an absent input returns `""`; for every
integer input it renders the integer as decimal digits and maps each digit
through the fixed table 1→A, 2→B, 3→C, 4→D with other characters passing
through unchanged; `decode_password(1234) = "ABCD"` and
`decode_password(105) = "A05"`. -/
theorem decode_password_spec :
    PasswordDecoder.decode Option.none = "" ∧
    (∀ n : Int, PasswordDecoder.decode (some n) =
      String.mk ((toString n).data.map (fun c =>
        if c = '1' then 'A' else if c = '2' then 'B'
        else if c = '3' then 'C' else if c = '4' then 'D' else c))) ∧
    PasswordDecoder.decode (some 1234) = "ABCD" ∧
    PasswordDecoder.decode (some 105) = "A05" := by
  refine ⟨rfl, ?_, by decide, by decide⟩
  intro n
  have hfun : PasswordDecoder.digitToLetter = (fun c =>
      if c = '1' then 'A' else if c = '2' then 'B'
      else if c = '3' then 'C' else if c = '4' then 'D' else c) :=
    funext digitToLetter_eq
  simp [PasswordDecoder.decode, hfun]

/-- The error table is the table of `errorName` over bit positions 0–29. -/
theorem ERROR_CODES_eq_range_map :
    ErrorDecoder.ERROR_CODES =
      (List.range 30).map (fun i => (i, ErrorDecoder.errorName i)) := by decide

/-- Claim C2: for every non-negative integer bitmap, `decode_errors` returns
the flag names whose bit positions (0 through 29) are set in the bitmap, in
ascending bit-position order, and nothing else; `decode_errors(0) = []`. -/
theorem decode_errors_bits (n : Nat) :
    ErrorDecoder.decode (PyVal.int (Int.ofNat n)) =
      ((List.range 30).filter (fun i => n.testBit i)).map ErrorDecoder.errorName ∧
    ErrorDecoder.decode (PyVal.int 0) = [] := by
  constructor
  · show ErrorDecoder.decodeInt (Int.ofNat n) = _
    unfold ErrorDecoder.decodeInt
    rw [ERROR_CODES_eq_range_map]
    rw [List.filter_map, List.map_map]
    rfl
  · decide

/-- Claim C9 counterexample: the string `"3"` is a non-integer input, yet
`decode_errors` converts it with `int(...)` and returns two flags, not the
empty sequence. -/
theorem decode_errors_string_counterexample :
    ErrorDecoder.decode (PyVal.str "3") = ["FAULT_LEAN", "FAULT_TOO_STEEP"] ∧
    ¬(ErrorDecoder.decode (PyVal.str "3") = []) := by decide

/-- Claim C9 (amended): a non-integer input on which the `int(...)`
conversion fails yields the empty sequence; convertible non-integer inputs
are decoded as their converted integer value. -/
theorem decode_errors_unconvertible (v : PyVal) (h : pyToInt v = Option.none) :
    ErrorDecoder.decode v = [] := by
  unfold ErrorDecoder.decode
  rw [h]

/-- Witness for the amended C9 at the concrete input `None`. -/
theorem decode_errors_unconvertible_witness :
    pyToInt PyVal.none = Option.none ∧ ErrorDecoder.decode PyVal.none = [] :=
  ⟨rfl, decode_errors_unconvertible PyVal.none rfl⟩

/-- `_publish_stat` records every invocation in the `pubCalls` trace. -/
@[simp] theorem publishStat_pubCalls (s : BridgeState) (k : String) (v : PyVal) :
    (publishStat s k v).pubCalls = s.pubCalls ++ [(k, statPayload v)] := by
  simp only [publishStat]
  split
  · rfl
  · split <;> rfl

/-- `_publish_stat` never touches the device session. -/
@[simp] theorem publishStat_moebot (s : BridgeState) (k : String) (v : PyVal) :
    (publishStat s k v).moebot = s.moebot := by
  simp only [publishStat]
  split
  · rfl
  · split <;> rfl

/-- `_publish_stat` never logs. -/
@[simp] theorem publishStat_logs (s : BridgeState) (k : String) (v : PyVal) :
    (publishStat s k v).logs = s.logs := by
  simp only [publishStat]
  split
  · rfl
  · split <;> rfl

/-- `_publish_stat` leaves the MQTT client flag alone. -/
@[simp] theorem publishStat_mqttClient (s : BridgeState) (k : String) (v : PyVal) :
    (publishStat s k v).mqttClient = s.mqttClient := by
  simp only [publishStat]
  split
  · rfl
  · split <;> rfl

/-- `_publish_stat` leaves the stats topic alone. -/
@[simp] theorem publishStat_statsTopic (s : BridgeState) (k : String) (v : PyVal) :
    (publishStat s k v).statsTopic = s.statsTopic := by
  simp only [publishStat]
  split
  · rfl
  · split <;> rfl

/-- `_publish_stat` forwards nothing to the device. -/
@[simp] theorem publishStat_deviceActions (s : BridgeState) (k : String) (v : PyVal) :
    (publishStat s k v).deviceActions = s.deviceActions := by
  simp only [publishStat]
  split
  · rfl
  · split <;> rfl

/-- Assigning a key in the change-detection dict makes it look up to the
assigned value. -/
theorem getStat_setStat_self (l : List (String × String)) (k v : String) :
    getStat (setStat l k v) k = some v := by
  induction l with
  | nil => simp [setStat, getStat]
  | cons hd tl ih =>
    rcases hd with ⟨k1, v1⟩
    unfold setStat
    by_cases h : k1 = k
    · simp [getStat, h]
    · simp [getStat, h, ih]

/-- When the cached value already equals the normalized payload,
`_publish_stat` emits nothing and leaves the cache alone. -/
theorem publishStat_skip (s : BridgeState) (k : String) (v : PyVal)
    (hc : s.mqttClient = true)
    (h : getStat s.lastStats k = some (statPayload v)) :
    (publishStat s k v).outbox = s.outbox ∧
    (publishStat s k v).lastStats = s.lastStats := by
  unfold publishStat
  simp [hc, h]

/-- When the cached value differs from the normalized payload,
`_publish_stat` emits exactly one retained message and caches the payload. -/
theorem publishStat_emit (s : BridgeState) (k : String) (v : PyVal)
    (hc : s.mqttClient = true)
    (h : ¬(getStat s.lastStats k = some (statPayload v))) :
    (publishStat s k v).outbox =
      s.outbox ++ [(s.statsTopic ++ "/" ++ k, statPayload v)] ∧
    (publishStat s k v).lastStats = setStat s.lastStats k (statPayload v) := by
  unfold publishStat
  simp [hc, h]

/-- Claim C1: `_publish_stat` normalizes the value (booleans lowercase),
emits nothing when the normalized value equals the cached value for the key,
and otherwise emits exactly once and updates the cache; hence publishing the
same value twice emits at most once (the second call is a no-op) and a
subsequent different value emits a second message. -/
theorem publish_stat_once_per_change (s : BridgeState) (k : String) (v w : PyVal)
    (hc : s.mqttClient = true) :
    ((publishStat (publishStat s k v) k v).outbox = (publishStat s k v).outbox) ∧
    ((publishStat (publishStat s k v) k v).lastStats = (publishStat s k v).lastStats) ∧
    (getStat s.lastStats k = some (statPayload v) →
      (publishStat s k v).outbox = s.outbox ∧
      (publishStat s k v).lastStats = s.lastStats) ∧
    (¬(getStat s.lastStats k = some (statPayload v)) →
      (publishStat s k v).outbox =
        s.outbox ++ [(s.statsTopic ++ "/" ++ k, statPayload v)]) ∧
    (getStat (publishStat s k v).lastStats k = some (statPayload v)) ∧
    (¬(statPayload w = statPayload v) →
      (publishStat (publishStat s k v) k w).outbox =
        (publishStat s k v).outbox ++ [(s.statsTopic ++ "/" ++ k, statPayload w)]) ∧
    statPayload (PyVal.bool true) = "true" ∧
    statPayload (PyVal.bool false) = "false" := by
  have hc1 : (publishStat s k v).mqttClient = true := by
    rw [publishStat_mqttClient]; exact hc
  have hcache : getStat (publishStat s k v).lastStats k = some (statPayload v) := by
    by_cases h : getStat s.lastStats k = some (statPayload v)
    · rw [(publishStat_skip s k v hc h).2]; exact h
    · rw [(publishStat_emit s k v hc h).2]; exact getStat_setStat_self _ _ _
  refine ⟨?_, ?_, ?_, ?_, hcache, ?_, rfl, rfl⟩
  · exact (publishStat_skip _ k v hc1 hcache).1
  · exact (publishStat_skip _ k v hc1 hcache).2
  · intro h
    exact publishStat_skip s k v hc h
  · intro h
    exact (publishStat_emit s k v hc h).1
  · intro h
    have hne : ¬(getStat (publishStat s k v).lastStats k = some (statPayload w)) := by
      rw [hcache]
      intro heq
      apply h
      injection heq with h2
      exact h2.symm
    have he := (publishStat_emit _ k w hc1 hne).1
    rw [he, publishStat_statsTopic]

/-- Witness for C1: on an empty cache, publishing battery 50 twice emits
once; a following battery 51 emits a second message. -/
theorem publish_stat_once_per_change_witness :
    (publishStat (publishStat bs0 "battery" (.int 50)) "battery" (.int 50)).outbox =
      (publishStat bs0 "battery" (.int 50)).outbox ∧
    (publishStat bs0 "battery" (.int 50)).outbox = [("moebot/stats/battery", "50")] ∧
    (publishStat (publishStat bs0 "battery" (.int 50)) "battery" (.int 51)).outbox =
      [("moebot/stats/battery", "50"), ("moebot/stats/battery", "51")] := by
  have h := publish_stat_once_per_change bs0 "battery" (.int 50) (.int 51) rfl
  refine ⟨h.1, ?_, ?_⟩
  · have := h.2.2.2.1 (by decide)
    simpa [bs0] using this
  · have h1 := h.2.2.2.1 (by decide)
    have h2 := h.2.2.2.2.2.1 (by decide)
    rw [h2, h1]
    rfl

/-- Claim C10: with no MQTT client, `_publish_stat` emits nothing and leaves
the change-detection cache unchanged, so a later publish of the same value —
once a client exists and the cache still lacks it — does emit. -/
theorem publish_stat_no_client (s : BridgeState) (k : String) (v : PyVal)
    (hc : s.mqttClient = false) :
    (publishStat s k v).outbox = s.outbox ∧
    (publishStat s k v).lastStats = s.lastStats ∧
    (∀ s2 : BridgeState, s2.mqttClient = true → s2.lastStats = s.lastStats →
      ¬(getStat s.lastStats k = some (statPayload v)) →
      (publishStat s2 k v).outbox =
        s2.outbox ++ [(s2.statsTopic ++ "/" ++ k, statPayload v)]) := by
  refine ⟨?_, ?_, ?_⟩
  · unfold publishStat; simp [hc]
  · unfold publishStat; simp [hc]
  · intro s2 h2 hls hne
    exact (publishStat_emit s2 k v h2 (by rw [hls]; exact hne)).1

/-- Witness for C10: with the client absent nothing is emitted or cached;
the same publish against the client-present state does emit. -/
theorem publish_stat_no_client_witness :
    (publishStat bsOff "battery" (.int 50)).outbox = [] ∧
    (publishStat bsOff "battery" (.int 50)).lastStats = [] ∧
    (publishStat bs0 "battery" (.int 50)).outbox = [("moebot/stats/battery", "50")] := by
  have h := publish_stat_no_client bsOff "battery" (.int 50) rfl
  refine ⟨by simpa [bsOff, bs0] using h.1, by simpa [bsOff, bs0] using h.2.1, ?_⟩
  have := h.2.2 bs0 rfl rfl (by decide)
  simpa [bs0] using this

/-- Claim C5: a `mow_time` payload parsing to an integer in 1–99 is accepted —
the device's mow time is set and exactly one `mow_time` publish follows; an
out-of-range or unparsable payload is logged and dropped with no device
mutation and no publish. -/
theorem mow_time_validation (s : BridgeState) (p : String) (d : Device)
    (hm : s.moebot = some d) :
    (∀ n : Int, pyParseInt p = some n → 1 ≤ n → n ≤ 99 →
      (handleCommand s "mow_time" p).moebot = some { d with mowTime := n } ∧
      (handleCommand s "mow_time" p).pubCalls =
        s.pubCalls ++ [("mow_time", toString n)] ∧
      (handleCommand s "mow_time" p).logs = s.logs) ∧
    (∀ n : Int, pyParseInt p = some n → ¬(1 ≤ n ∧ n ≤ 99) →
      (handleCommand s "mow_time" p).moebot = s.moebot ∧
      (handleCommand s "mow_time" p).pubCalls = s.pubCalls ∧
      (handleCommand s "mow_time" p).outbox = s.outbox ∧
      (handleCommand s "mow_time" p).lastStats = s.lastStats ∧
      (handleCommand s "mow_time" p).logs =
        s.logs ++ ["Mow time must be between 1-99, got " ++ toString n]) ∧
    (pyParseInt p = Option.none →
      (handleCommand s "mow_time" p).moebot = s.moebot ∧
      (handleCommand s "mow_time" p).pubCalls = s.pubCalls ∧
      (handleCommand s "mow_time" p).outbox = s.outbox ∧
      (handleCommand s "mow_time" p).lastStats = s.lastStats ∧
      (handleCommand s "mow_time" p).logs =
        s.logs ++ ["Invalid mow_time value: " ++ p]) := by
  refine ⟨?_, ?_, ?_⟩
  · intro n hp h1 h99
    simp [handleCommand, handleCommandCore, hp, hm, h1, h99, statPayload]
  · intro n hp hrange
    simp [handleCommand, handleCommandCore, hp, hrange, logAdd]
  · intro hp
    simp [handleCommand, handleCommandCore, hp, logAdd]

/-- Witness for C5: payload "50" is accepted with one publish call; "150",
"0" and "abc" are dropped without mutation or publish. -/
theorem mow_time_validation_witness :
    (handleCommand sDev "mow_time" "50").pubCalls = [("mow_time", "50")] ∧
    (handleCommand sDev "mow_time" "50").moebot = some { dev0 with mowTime := 50 } ∧
    (handleCommand sDev "mow_time" "150").pubCalls = [] ∧
    (handleCommand sDev "mow_time" "150").moebot = some dev0 ∧
    (handleCommand sDev "mow_time" "0").pubCalls = [] ∧
    (handleCommand sDev "mow_time" "abc").pubCalls = [] := by
  have h50 := (mow_time_validation sDev "50" dev0 rfl).1 50 (by decide)
    (by decide) (by decide)
  have h150 := (mow_time_validation sDev "150" dev0 rfl).2.1 150 (by decide)
    (by decide)
  have h0 := (mow_time_validation sDev "0" dev0 rfl).2.1 0 (by decide) (by decide)
  have habc := (mow_time_validation sDev "abc" dev0 rfl).2.2 (by decide)
  refine ⟨?_, ?_, ?_, ?_, ?_, ?_⟩
  · simpa [sDev, bs0] using h50.2.1
  · simpa [sDev, bs0] using h50.1
  · simpa [sDev, bs0] using h150.2.1
  · simpa [sDev, bs0] using h150.1
  · simpa [sDev, bs0] using h0.2.1
  · simpa [sDev, bs0] using habc.2.1

/-- Claim C7: the dispatcher entry point never raises — an unknown command
name only appends a log line (no mutation, no publish), and an internal
failure of a known command's handler is caught and turned into a per-command
error log instead of propagating. -/
theorem handle_command_isolated (s : BridgeState) (c p : String) :
    (¬(c ∈ knownCommands) →
      handleCommand s c p = logAdd s ("Unknown command: " ++ c) ∧
      (handleCommand s c p).moebot = s.moebot ∧
      (handleCommand s c p).outbox = s.outbox ∧
      (handleCommand s c p).pubCalls = s.pubCalls ∧
      (handleCommand s c p).lastStats = s.lastStats) ∧
    (∀ s1 : BridgeState, handleCommandCore s c p = Except.error s1 →
      handleCommand s c p = logAdd s1 ("Error handling command " ++ c)) := by
  constructor
  · intro h
    simp only [knownCommands, List.mem_cons, List.not_mem_nil, or_false,
      not_or] at h
    obtain ⟨h1, h2, h3, h4, h5, h6, h7, h8, h9⟩ := h
    have hcc : handleCommand s c p = logAdd s ("Unknown command: " ++ c) := by
      simp [handleCommand, handleCommandCore, h1, h2, h3, h4, h5, h6, h7, h8, h9]
    exact ⟨hcc, by rw [hcc]; rfl, by rw [hcc]; rfl, by rw [hcc]; rfl,
      by rw [hcc]; rfl⟩
  · intro s1 he
    simp [handleCommand, he]

/-- Witness for C7: an unknown command only logs; `start` with no device
session fails internally and is caught and logged. -/
theorem handle_command_isolated_witness :
    handleCommand bs0 "selfdestruct" "x" = logAdd bs0 "Unknown command: selfdestruct" ∧
    handleCommand bs0 "start" "x" = logAdd bs0 "Error handling command start" := by
  refine ⟨((handle_command_isolated bs0 "selfdestruct" "x").1 (by decide)).1, ?_⟩
  exact (handle_command_isolated bs0 "start" "x").2 bs0 rfl

/-- `_publish_all_stats` never touches the device session. -/
theorem publishAllStats_moebot (s : BridgeState) :
    (publishAllStats s).moebot = s.moebot := by
  rcases hm : s.moebot with _ | d
  · simp [publishAllStats, hm, logAdd]
  · simp only [publishAllStats, hm]
    rcases hz : d.zones with _ | zs <;> rcases hpw : d.dps106 with _ | n <;>
      simp [hz, hpw, apply_ite BridgeState.moebot, ite_self, hm]

/-- Claim C6: in every `publish_all` with a live session, exactly one
`emergency_state` publish happens; its payload is the actual substate iff
the device state is EMERGENCY and a substate is present, and the empty
string otherwise. -/
theorem publish_all_emergency (s : BridgeState) (d : Device)
    (hm : s.moebot = some d) :
    (publishAllStats s).pubCalls.filter (fun q => q.1 == "emergency_state") =
      s.pubCalls.filter (fun q => q.1 == "emergency_state") ++
        [("emergency_state",
          if (d.state == "EMERGENCY") && esTruthy d.emergencyState then
            d.emergencyState.getD ""
          else "")] := by
  cases he : (d.state == "EMERGENCY") && esTruthy d.emergencyState <;>
    rcases hz : d.zones with _ | zs <;> rcases hpw : d.dps106 with _ | n <;>
      simp [publishAllStats, hm, hz, hpw, he, List.filter_append, statPayload,
        apply_ite BridgeState.pubCalls,
        apply_ite (List.filter (fun q : String × String => q.1 == "emergency_state")),
        ite_self]

/-- Witness for C6 at a concrete emergency device and a concrete recovered
device. -/
theorem publish_all_emergency_witness :
    (publishAllStats { bs0 with moebot := some { dev0 with
        state := "EMERGENCY", emergencyState := some "LIFTED" } }).pubCalls.filter
      (fun q => q.1 == "emergency_state") = [("emergency_state", "LIFTED")] ∧
    (publishAllStats sDev).pubCalls.filter
      (fun q => q.1 == "emergency_state") = [("emergency_state", "")] := by
  have h1 := publish_all_emergency
    { bs0 with moebot := some { dev0 with
        state := "EMERGENCY", emergencyState := some "LIFTED" } }
    { dev0 with state := "EMERGENCY", emergencyState := some "LIFTED" } rfl
  have h2 := publish_all_emergency sDev dev0 rfl
  constructor
  · rw [h1]; rfl
  · rw [h2]; rfl

/-- Claim C3 counterexample: with every candidate protocol version failing
the status probe, `__ensure_connection` locks nothing — yet `_connect_moebot`
completes successfully and the session is present, so no failure is reported
to the caller and the session does not remain absent. -/
theorem connect_failure_counterexample :
    ensureConnection failProbe =
      { lockedVersion := Option.none, seededState := Option.none, warned := true } ∧
    (match connectMoebot bs0 extAllFail with
     | .ok s1 => s1.moebot.isSome
     | .error _ => false) = true := by
  constructor
  · rfl
  · rfl

/-- Claim C3 (amended): `connect` tries the candidate versions in order
(3.4 then 3.3), locks in the first whose status response contains a dps
payload and seeds the state from it; if no candidate succeeds it only logs a
warning and completes normally — no failure reaches the caller, and the
session object is still created and retained. -/
theorem connect_negotiation (probe : ProbeOracle) :
    (∀ d : Device, probe "3.4" = some (true, d) →
      ensureConnection probe =
        { lockedVersion := some "3.4", seededState := some d, warned := false }) ∧
    (∀ d : Device, probeFails probe "3.4" → probe "3.3" = some (true, d) →
      ensureConnection probe =
        { lockedVersion := some "3.3", seededState := some d, warned := false }) ∧
    (probeFails probe "3.4" → probeFails probe "3.3" →
      ensureConnection probe =
        { lockedVersion := Option.none, seededState := Option.none, warned := true } ∧
      (∀ s : BridgeState,
        (match connectMoebot s (extOf probe) with
         | .ok s1 => s1.moebot.isSome
         | .error _ => false) = true)) := by
  refine ⟨?_, ?_, ?_⟩
  · intro d h4
    simp [ensureConnection, versionsToTry, ensureConnectionGo, h4]
  · intro d h4 h3
    rcases h4 with h4 | ⟨d4, h4⟩ <;>
      simp [ensureConnection, versionsToTry, ensureConnectionGo, h4, h3]
  · intro h4 h3
    have hec : ensureConnection probe =
        { lockedVersion := Option.none, seededState := Option.none, warned := true } := by
      rcases h4 with h4 | ⟨d4, h4⟩ <;> rcases h3 with h3 | ⟨d3, h3⟩ <;>
        simp [ensureConnection, versionsToTry, ensureConnectionGo, h4, h3]
    refine ⟨hec, ?_⟩
    intro s
    simp [connectMoebot, extOf, publishAllStats_moebot]

/-- Witness for the amended C3: with 3.4 raising and 3.3 answering, the
session locks onto 3.3; with both failing, nothing is locked and only the
warning flag is set. -/
theorem connect_negotiation_witness :
    ensureConnection probeB =
      { lockedVersion := some "3.3", seededState := some dev0, warned := false } ∧
    ensureConnection failProbe =
      { lockedVersion := Option.none, seededState := Option.none, warned := true } := by
  refine ⟨(connect_negotiation probeB).2.1 dev0 (Or.inl rfl) rfl, ?_⟩
  exact ((connect_negotiation failProbe).2.2 (Or.inl rfl) (Or.inl rfl)).1

/-- Claim C4: each supervisor check cycle triggers at most one reconnect
cycle, exactly one when the staleness condition (last_update older than 60 s)
is detected on a live listener, and every cycle pauses for at least two
seconds — never a tight loop of repeated reconnects. -/
theorem supervisor_single_restart (ct : Int) (mb : Option DevHealth) (lastGc : Int) :
    ((superviseStep ct mb lastGc).1.count SupAction.restart ≤ 1) ∧
    (∀ dev : DevHealth, mb = some dev → dev.listenerAlive = true →
      isStale ct dev.lastUpdate = true →
      (superviseStep ct mb lastGc).1.count SupAction.restart = 1) ∧
    2 ≤ totalPause (superviseStep ct mb lastGc).1 := by
  rcases mb with _ | dev
  · refine ⟨?_, ?_, ?_⟩
    · simp only [superviseStep]; decide
    · intro dev h
      exact absurd h (by simp)
    · simp only [superviseStep]; decide
  · cases ha : dev.listenerAlive <;> cases hs : isStale ct dev.lastUpdate <;>
      by_cases hgc : ct - lastGc > 900 <;>
      simp [superviseStep, ha, hs, hgc, totalPause, pauseSeconds]

/-- Witness for C4 at a concrete stale observation: one reconnect cycle and
a nonzero pause. -/
theorem supervisor_single_restart_witness :
    (superviseStep 200 (some devStale) 0).1.count SupAction.restart = 1 ∧
    2 ≤ totalPause (superviseStep 200 (some devStale) 0).1 := by
  have h := supervisor_single_restart 200 (some devStale) 0
  exact ⟨h.2.1 devStale rfl rfl (by decide), h.2.2⟩

end Moebot
